import Mathlib

/-!
Shallow embedding of the vk_llw crate (a Vulkan resource-lifecycle layer) and
proofs about its specified behaviour.

Native Vulkan handles are opaque values issued by the driver; we model every
handle as a `Nat`.  Native destroy calls performed by the crate's `Drop`
implementations are recorded as explicit events (`VkDestroyCall`), and Rust's
`Arc` reference counting (the crate wraps every `UniqueX` in an `Arc`) is
modelled by an explicit strong-count state machine (`ArcState`).  Fallible
constructors take the outcome of the external native create call as an
explicit `Except` argument, since the native API is an external collaborator.
-/

namespace VkLlw

/-- Native destroy/free operations invoked by the crate's `Drop`
implementations, one constructor per destroy entry point that appears in the
source (`destroy_buffer`, `free_memory`, `destroy_command_pool`,
`free_command_buffers`, `destroy_sampler`, `destroy_descriptor_set_layout`,
`destroy_debug_report_callback`, `destroy_device`, `destroy_instance`, and the
shader-module destroy reached through the generic `RawDeviceHandle` contract). -/
inductive VkDestroyCall where
  | destroyBuffer (handle : Nat)
  | freeMemory (handle : Nat)
  | destroyCommandPool (handle : Nat)
  | freeCommandBuffers (pool : Nat) (handles : List Nat)
  | destroySampler (handle : Nat)
  | destroyDescriptorSetLayout (handle : Nat)
  | destroyDebugReportCallback (handle : Nat)
  | destroyDevice (handle : Nat)
  | destroyInstance (handle : Nat)
  | destroyShaderModule (handle : Nat)
deriving DecidableEq

/-- State of one `Arc<T>`: the strong reference count together with the inner
value.  Every shared wrapper of the crate (`Buffer`, `Sampler`, `Device`,
`DeviceHandle`, ...) is `Arc<UniqueX>`, so clone/drop of a shared handle is
clone/drop of this state. -/
structure ArcState (α : Type) where
  strong : Nat
  value : α
deriving DecidableEq

/-- Wrapping a freshly built unique resource in `Arc::new`: strong count one. -/
def arcNew (a : α) : ArcState α := ⟨1, a⟩

/-- `Arc::clone`: increments the strong count; the inner value is shared. -/
def arcClone (s : ArcState α) : ArcState α := ⟨s.strong + 1, s.value⟩

/-- Iterated `Arc::clone`. -/
def arcCloneN : Nat → ArcState α → ArcState α
  | 0, s => s
  | n + 1, s => arcClone (arcCloneN n s)

/-- Dropping one clone of the `Arc`: decrement the strong count; when the last
clone is dropped the inner unique value is dropped, emitting its drop events
`f value` (the native destroy calls of the corresponding `Drop` impl). -/
def arcDrop (f : α → List ε) (s : ArcState α) : Option (ArcState α) × List ε :=
  if s.strong ≤ 1 then (none, f s.value)
  else (some ⟨s.strong - 1, s.value⟩, [])

/-- Dropping `n` clones one after another, accumulating emitted events. -/
def arcDropN (f : α → List ε) : Nat → ArcState α → Option (ArcState α) × List ε
  | 0, s => (some s, [])
  | n + 1, s =>
    match arcDrop f s with
    | (none, ev) => (none, ev)
    | (some s2, ev) => ((arcDropN f n s2).1, ev ++ (arcDropN f n s2).2)

/-- Embeds `QueueInfo` from `device/mod.rs` (a created queue family: its
family index and how many queues were created in it). -/
structure QueueInfo where
  familyIndex : Nat
  count : Nat
deriving DecidableEq

/-- Embeds `PhysicalDeviceInfo` from `device/pdevice_selectors.rs`; the
physical-device handle and features are opaque native values. -/
structure PhysicalDeviceInfo where
  pdevice : Nat
  queuesInfo : List QueueInfo
  physicalDeviceFeatures : Nat
deriving DecidableEq

/-- Embeds `UniqueInstance` from `instance.rs`: the raw `ash::Instance` handle
and the entry loader (opaque). -/
structure UniqueInstance where
  handle : Nat
  entry : Nat
deriving DecidableEq

/-- Embeds `Instance` from `instance.rs`: `Arc<UniqueInstance>`; the shared
value is modelled directly (clones share it). -/
structure Instance where
  uniqueInstance : UniqueInstance
deriving DecidableEq

/-- Embeds `UniqueDevice` from `device/mod.rs`.  The source field `instance`
is named `inst` here because `instance` is a Lean keyword. -/
structure UniqueDevice where
  inst : Instance
  pdeviceInfo : PhysicalDeviceInfo
  handle : Nat
deriving DecidableEq

/-- Embeds `Device` from `device/mod.rs`: `Arc<UniqueDevice>`. -/
structure Device where
  uniqueDevice : UniqueDevice
deriving DecidableEq

/-- Modelled from the spec: `queue.rs` calls `device.queues_info()`, but the
`Device::queues_info` accessor itself is missing from the source tree (only
its caller is present).  Per the spec, the device records the queue families
it was created with; these are exactly `PhysicalDeviceInfo.queues_info`
(`device/pdevice_selectors.rs`), which the device owns. -/
def Device.queuesInfo (d : Device) : List QueueInfo :=
  d.uniqueDevice.pdeviceInfo.queuesInfo

/-- Embeds `ash::InstanceError` as used by `instance.rs` (`create_instance`
either fails to load or returns a native `vk::Result` code, carried intact). -/
inductive InstanceError where
  | loadError
  | vkError (code : Int)
deriving DecidableEq

/-- Embeds the fields of `vk::BufferCreateInfo` that `buffer.rs` reads. -/
structure BufferCreateInfo where
  flags : Nat
  size : Nat
  usage : Nat
  sharingMode : Nat
deriving DecidableEq

/-- Embeds the fields of `vk::MemoryAllocateInfo` that `memory.rs` reads. -/
structure MemoryAllocateInfo where
  allocationSize : Nat
  memoryTypeIndex : Nat
deriving DecidableEq

/-- Embeds the fields of `vk::CommandPoolCreateInfo` that `command_pool.rs`
reads. -/
structure CommandPoolCreateInfo where
  flags : Nat
  queueFamilyIndex : Nat
deriving DecidableEq

/-- Embeds the fields of `vk::CommandBufferAllocateInfo` that
`command_buffer.rs` reads. -/
structure CommandBufferAllocateInfo where
  level : Nat
  commandBufferCount : Nat
  commandPool : Nat
deriving DecidableEq

/-- Opaque model of `vk::SamplerCreateInfo`: `sampler.rs` passes it to the
native call without reading its fields. -/
structure SamplerCreateInfo where
  raw : Nat
deriving DecidableEq

/-- Opaque model of `vk::DescriptorSetLayoutCreateInfo` as passed through by
`desc_set_layout/mod.rs`. -/
structure DescriptorSetLayoutCreateInfo where
  raw : Nat
deriving DecidableEq

/-- Opaque model of `vk::DebugReportCallbackCreateInfoEXT` as passed through
by `debug_report.rs`. -/
structure DebugReportCallbackCreateInfo where
  raw : Nat
deriving DecidableEq

/-- Opaque model of `vk::InstanceCreateInfo` as passed through by
`instance.rs`. -/
structure InstanceCreateInfo where
  raw : Nat
deriving DecidableEq

/-- Opaque model of `vk::DeviceCreateInfo` as passed through by
`device/mod.rs`. -/
structure DeviceCreateInfo where
  raw : Nat
deriving DecidableEq

/-- Embeds `CreateBufferError` from `buffer.rs`: wraps the native code. -/
inductive CreateBufferError where
  | vkError (code : Int)
deriving DecidableEq

/-- Embeds `MemAllocError` from `memory.rs`. -/
inductive MemAllocError where
  | vkError (code : Int)
deriving DecidableEq

/-- Embeds `CreateCommandPoolError` from `command_pool.rs`. -/
inductive CreateCommandPoolError where
  | vkError (code : Int)
deriving DecidableEq

/-- Embeds `AllocateCommandBuffersError` from `command_buffer.rs`. -/
inductive AllocateCommandBuffersError where
  | vkError (code : Int)
deriving DecidableEq

/-- Embeds `CreateSamplerError` from `sampler.rs`. -/
inductive CreateSamplerError where
  | vkError (code : Int)
deriving DecidableEq

/-- Embeds `CreateDescriptorSetLayoutError` from `desc_set_layout/mod.rs`. -/
inductive CreateDescriptorSetLayoutError where
  | vkError (code : Int)
deriving DecidableEq

/-- Embeds `CreateDebugReportError` from `debug_report.rs`. -/
inductive CreateDebugReportError where
  | vkError (code : Int)
deriving DecidableEq

/-- Embeds `CreateDeviceError` from `device/mod.rs` (native failure or
physical-device selection failure). -/
inductive CreateDeviceError where
  | vkError (code : Int)
  | physicalDeviceError
deriving DecidableEq

/-- Embeds `GetQueueError` from `queue.rs`: the two logical precondition
violations, distinct from any native error code. -/
inductive GetQueueError where
  | badFamilyIndex
  | badQueueIndex
deriving DecidableEq

/-- Embeds `UniqueSampler` from `sampler.rs`. -/
structure UniqueSampler where
  handle : Nat
  device : Device
deriving DecidableEq

/-- Embeds `Sampler` from `sampler.rs`: `Arc<UniqueSampler>` (field
`sampler`). -/
structure Sampler where
  sampler : UniqueSampler
deriving DecidableEq

/-- Embeds `UniqueSampler::new` from `sampler.rs`: the native create outcome
is the explicit `native` argument; on error the code is wrapped by the
crate's `From<vk::Result>` conversion (the `?` operator).  The second
component records native destroy calls performed during construction: there
are none on either path. -/
def UniqueSampler.new (createInfo : SamplerCreateInfo) (device : Device)
    (native : Except Int Nat) :
    Except CreateSamplerError UniqueSampler × List VkDestroyCall :=
  match native with
  | .ok h => (.ok ⟨h, device⟩, [])
  | .error e => (.error (.vkError e), [])

/-- Embeds `impl Drop for UniqueSampler` (`sampler.rs`): destroys the native
sampler. -/
def UniqueSampler.dropDestroys (u : UniqueSampler) : List VkDestroyCall :=
  [.destroySampler u.handle]

/-- Embeds `impl PartialEq for UniqueSampler` (`sampler.rs`): native-handle
equality. -/
def UniqueSampler.beq (a b : UniqueSampler) : Bool :=
  a.handle == b.handle

/-- Embeds `UniqueBuffer` from `buffer.rs`. -/
structure UniqueBuffer where
  handle : Nat
  device : Device
  size : Nat
  usage : Nat
deriving DecidableEq

/-- Embeds `Buffer` from `buffer.rs`: `Arc<UniqueBuffer>`. -/
structure Buffer where
  uniqueBuffer : UniqueBuffer
deriving DecidableEq

/-- Embeds `UniqueBuffer::new` from `buffer.rs`: on native success the new
unique value stores the handle, the device and the descriptor fields it
keeps; on native failure the `?` operator converts the code into
`CreateBufferError::VkError` unchanged.  No destroy call is emitted on
either path. -/
def UniqueBuffer.new (device : Device) (createInfo : BufferCreateInfo)
    (native : Except Int Nat) :
    Except CreateBufferError UniqueBuffer × List VkDestroyCall :=
  match native with
  | .ok h => (.ok ⟨h, device, createInfo.size, createInfo.usage⟩, [])
  | .error e => (.error (.vkError e), [])

/-- Embeds `impl Drop for UniqueBuffer` (`buffer.rs`): destroys the native
buffer. -/
def UniqueBuffer.dropDestroys (u : UniqueBuffer) : List VkDestroyCall :=
  [.destroyBuffer u.handle]

/-- Embeds `impl PartialEq for UniqueBuffer` (`buffer.rs`): native-handle
equality. -/
def UniqueBuffer.beq (a b : UniqueBuffer) : Bool :=
  a.handle == b.handle

/-- Embeds the derived `PartialEq` of `Buffer` (`buffer.rs`): `Arc`
comparison forwards to the inner `UniqueBuffer` comparison. -/
def Buffer.beq (a b : Buffer) : Bool :=
  UniqueBuffer.beq a.uniqueBuffer b.uniqueBuffer

/-- Embeds the derived `Clone` of `Buffer`: `Arc::clone` shares the same
inner unique buffer. -/
def Buffer.clone (b : Buffer) : Buffer := b

/-- Embeds `UniqueMemory` from `memory.rs`. -/
structure UniqueMemory where
  device : Device
  handle : Nat
deriving DecidableEq

/-- Embeds `Memory` from `memory.rs`: `Arc<UniqueMemory>`. -/
structure Memory where
  uniqueMemory : UniqueMemory
deriving DecidableEq

/-- Embeds `UniqueMemory::new` from `memory.rs`. -/
def UniqueMemory.new (device : Device) (allocateInfo : MemoryAllocateInfo)
    (native : Except Int Nat) :
    Except MemAllocError UniqueMemory × List VkDestroyCall :=
  match native with
  | .ok h => (.ok ⟨device, h⟩, [])
  | .error e => (.error (.vkError e), [])

/-- Embeds `impl Drop for UniqueMemory` (`memory.rs`): frees the native
device memory. -/
def UniqueMemory.dropDestroys (u : UniqueMemory) : List VkDestroyCall :=
  [.freeMemory u.handle]

/-- Embeds `UniqueCommandPool` from `command_pool.rs`. -/
structure UniqueCommandPool where
  handle : Nat
  device : Device
  queueFamilyIndex : Nat
  flags : Nat
deriving DecidableEq

/-- Embeds `CommandPool` from `command_pool.rs`: `Arc<UniqueCommandPool>`. -/
structure CommandPool where
  uniqueCommandPool : UniqueCommandPool
deriving DecidableEq

/-- Embeds `UniqueCommandPool::new` from `command_pool.rs`. -/
def UniqueCommandPool.new (device : Device) (createInfo : CommandPoolCreateInfo)
    (native : Except Int Nat) :
    Except CreateCommandPoolError UniqueCommandPool × List VkDestroyCall :=
  match native with
  | .ok h => (.ok ⟨h, device, createInfo.queueFamilyIndex, createInfo.flags⟩, [])
  | .error e => (.error (.vkError e), [])

/-- Embeds `impl Drop for UniqueCommandPool` (`command_pool.rs`): destroys
the native command pool. -/
def UniqueCommandPool.dropDestroys (u : UniqueCommandPool) : List VkDestroyCall :=
  [.destroyCommandPool u.handle]

/-- Embeds `UniqueCommandBuffers` from `command_buffer.rs`: the allocated
native command-buffer handles, the owning pool (a retained dependency), the
level, and the device. -/
structure UniqueCommandBuffers where
  handles : List Nat
  pool : CommandPool
  level : Nat
  device : Device
deriving DecidableEq

/-- Embeds `CommandBuffers` from `command_buffer.rs`:
`Arc<UniqueCommandBuffers>`. -/
structure CommandBuffers where
  commandBuffers : UniqueCommandBuffers
deriving DecidableEq

/-- Embeds `UniqueCommandBuffers::allocate` from `command_buffer.rs`; the
native allocation yields the whole batch of handles at once. -/
def UniqueCommandBuffers.allocate (allocateInfo : CommandBufferAllocateInfo)
    (device : Device) (pool : CommandPool) (native : Except Int (List Nat)) :
    Except AllocateCommandBuffersError UniqueCommandBuffers × List VkDestroyCall :=
  match native with
  | .ok hs => (.ok ⟨hs, pool, allocateInfo.level, device⟩, [])
  | .error e => (.error (.vkError e), [])

/-- Embeds `impl Drop for UniqueCommandBuffers` (`command_buffer.rs`): frees
the whole batch from its owning pool (the pool and device references are
fields, released only after this call). -/
def UniqueCommandBuffers.dropDestroys (u : UniqueCommandBuffers) : List VkDestroyCall :=
  [.freeCommandBuffers u.pool.uniqueCommandPool.handle u.handles]

/-- Embeds `UniqueCommandBuffers::handle` (`command_buffer.rs`):
`self.handles.get(index)` returns an `Option`, never panicking. -/
def UniqueCommandBuffers.handle (u : UniqueCommandBuffers) (index : Nat) : Option Nat :=
  u.handles.get? index

/-- Embeds `UniqueCommandBuffers::len` (`command_buffer.rs`). -/
def UniqueCommandBuffers.len (u : UniqueCommandBuffers) : Nat :=
  u.handles.length

/-- Embeds `CommandBuffers::handle` (`command_buffer.rs`): forwards to the
unique batch. -/
def CommandBuffers.handle (c : CommandBuffers) (index : Nat) : Option Nat :=
  c.commandBuffers.handle index

/-- Embeds `CommandBuffers::len` (`command_buffer.rs`). -/
def CommandBuffers.len (c : CommandBuffers) : Nat :=
  c.commandBuffers.len

/-- Embeds `UniqueDescriptorSetLayout` from `desc_set_layout/mod.rs`: the
native handle, the device, and the sampler dependencies retained for the
layout's lifetime. -/
structure UniqueDescriptorSetLayout where
  handle : Nat
  device : Device
  samplers : List Sampler
deriving DecidableEq

/-- Embeds `DescriptorSetLayout` from `desc_set_layout/mod.rs`:
`Arc<UniqueDescriptorSetLayout>`. -/
structure DescriptorSetLayout where
  descriptorSetLayout : UniqueDescriptorSetLayout
deriving DecidableEq

/-- Embeds `UniqueDescriptorSetLayout::new` from `desc_set_layout/mod.rs`. -/
def UniqueDescriptorSetLayout.new (createInfo : DescriptorSetLayoutCreateInfo)
    (device : Device) (samplers : List Sampler) (native : Except Int Nat) :
    Except CreateDescriptorSetLayoutError UniqueDescriptorSetLayout × List VkDestroyCall :=
  match native with
  | .ok h => (.ok ⟨h, device, samplers⟩, [])
  | .error e => (.error (.vkError e), [])

/-- Drop behaviour of `UniqueDescriptorSetLayout`: the source declares no
`impl Drop for UniqueDescriptorSetLayout` (neither in
`desc_set_layout/mod.rs` nor in the older `desc_set_layout.rs`), so dropping
it performs no native destroy call at all; only its fields (device and
sampler references) are released. -/
def UniqueDescriptorSetLayout.dropDestroys (_ : UniqueDescriptorSetLayout) :
    List VkDestroyCall :=
  []

/-- Embeds `UniqueDebugReport` from `debug_report.rs`.  The `debugReport`
field stands for the loaded `ext::DebugReport` function table and the
`callback` field for the leaked callback box pointer, both opaque. -/
structure UniqueDebugReport where
  inst : Instance
  debugReport : Nat
  handle : Nat
  callback : Nat
deriving DecidableEq

/-- Embeds `DebugReport` from `debug_report.rs`: `Arc<UniqueDebugReport>`. -/
structure DebugReport where
  uniqueDebugReport : UniqueDebugReport
deriving DecidableEq

/-- Embeds `UniqueDebugReport::new` from `debug_report.rs`; the extension
function table it loads is opaque (modelled as `0`). -/
def UniqueDebugReport.new (inst : Instance)
    (createInfo : DebugReportCallbackCreateInfo) (callback : Nat)
    (native : Except Int Nat) :
    Except CreateDebugReportError UniqueDebugReport × List VkDestroyCall :=
  match native with
  | .ok h => (.ok ⟨inst, 0, h, callback⟩, [])
  | .error e => (.error (.vkError e), [])

/-- Embeds `impl Drop for UniqueDebugReport` (`debug_report.rs`): destroys
the native callback object (and frees the callback box). -/
def UniqueDebugReport.dropDestroys (u : UniqueDebugReport) : List VkDestroyCall :=
  [.destroyDebugReportCallback u.handle]

/-- Embeds `UniqueDevice::new` from `device/mod.rs`. -/
def UniqueDevice.new (inst : Instance) (pdeviceInfo : PhysicalDeviceInfo)
    (createInfo : DeviceCreateInfo) (native : Except Int Nat) :
    Except CreateDeviceError UniqueDevice × List VkDestroyCall :=
  match native with
  | .ok h => (.ok ⟨inst, pdeviceInfo, h⟩, [])
  | .error e => (.error (.vkError e), [])

/-- Embeds `impl Drop for UniqueDevice` (`device/mod.rs`): destroys the
native logical device. -/
def UniqueDevice.dropDestroys (u : UniqueDevice) : List VkDestroyCall :=
  [.destroyDevice u.handle]

/-- Embeds `UniqueInstance::new` from `instance.rs`: `create_instance` fails
with an `ash::InstanceError`, propagated unchanged by `?`. -/
def UniqueInstance.new (entry : Nat) (createInfo : InstanceCreateInfo)
    (native : Except InstanceError Nat) :
    Except InstanceError UniqueInstance × List VkDestroyCall :=
  match native with
  | .ok h => (.ok ⟨h, entry⟩, [])
  | .error e => (.error e, [])

/-- Embeds `impl Drop for UniqueInstance` (`instance.rs`): destroys the
native instance. -/
def UniqueInstance.dropDestroys (u : UniqueInstance) : List VkDestroyCall :=
  [.destroyInstance u.handle]

/-- Embeds the generic `UniqueDeviceHandle<T>` from `generic/mod.rs`.  Its
fields are exactly `handle`, `device` and `_dependencies` (type-erased
`Vec<Box<dyn Dependence>>`, modelled as opaque ids); the struct stores no
destroy context. -/
structure UniqueDeviceHandle where
  handle : Nat
  device : Device
  _dependencies : List Nat
deriving DecidableEq

/-- Embeds `UniqueDeviceHandle::new` from `generic/mod.rs`: on native failure
the `VkResult` error code is returned unchanged (no wrapping); no destroy
call is performed on either path, and on success the value holds exactly the
handle, the device and the dependency list. -/
def UniqueDeviceHandle.new (createInfo : Nat) (device : Device)
    (dependencies : List Nat) (native : Except Int Nat) :
    Except Int UniqueDeviceHandle × List VkDestroyCall :=
  match native with
  | .ok h => (.ok ⟨h, device, dependencies⟩, [])
  | .error e => (.error e, [])

/-- Embeds `impl Drop for UniqueDeviceHandle` (`generic/mod.rs`): it invokes
the raw contract's destroy operation on the wrapped handle, passing only the
device (`self.handle.destroy(self.device.handle())`); no destroy-context
value is stored in the struct or passed along.  `destroyOp` is the
per-kind destroy operation of the `RawDeviceHandle` contract
(`generic/raw.rs`). -/
def UniqueDeviceHandle.dropDestroys (destroyOp : Nat → VkDestroyCall)
    (u : UniqueDeviceHandle) : List VkDestroyCall :=
  [destroyOp u.handle]

/-- Embeds `impl PartialEq for UniqueDeviceHandle` (`generic/mod.rs`):
native-handle equality. -/
def UniqueDeviceHandle.beq (a b : UniqueDeviceHandle) : Bool :=
  a.handle == b.handle

/-- Embeds the generic shared wrapper `DeviceHandle<T>` from
`generic/mod.rs`: `Arc<UniqueDeviceHandle<T>>` (field `unique_handle`). -/
structure DeviceHandle where
  uniqueHandle : UniqueDeviceHandle
deriving DecidableEq

/-- Embeds the derived `PartialEq` of `DeviceHandle` (`generic/mod.rs`):
forwards through the `Arc` to the unique handle's comparison. -/
def DeviceHandle.beq (a b : DeviceHandle) : Bool :=
  UniqueDeviceHandle.beq a.uniqueHandle b.uniqueHandle

/-- Embeds the derived `Clone` of `DeviceHandle`: `Arc::clone` shares the
same unique handle. -/
def DeviceHandle.clone (d : DeviceHandle) : DeviceHandle := d

/-- Native (non-destroy) API calls made by the crate; `Queue::get` makes at
most one, `vkGetDeviceQueue`. -/
inductive NativeCall where
  | getDeviceQueue (familyIndex : Nat) (queueIndex : Nat)
deriving DecidableEq

/-- Embeds `Queue` from `queue.rs`. -/
structure Queue where
  handle : Nat
  device : Device
  familyIndex : Nat
  queueIndex : Nat
deriving DecidableEq

/-- Embeds `Queue::get` from `queue.rs`.  `getDeviceQueue` models the native
`vkGetDeviceQueue` entry point (an external collaborator returning the queue
handle).  The second component records which native calls were attempted:
the source searches `device.queues_info()` for the family, checks the queue
index against the created count, and only then touches the native API; both
error paths return before any native call. -/
def Queue.get (getDeviceQueue : Nat → Nat → Nat) (device : Device)
    (familyIndex queueIndex : Nat) :
    Except GetQueueError Queue × List NativeCall :=
  match device.queuesInfo.find? (fun inf => inf.familyIndex == familyIndex) with
  | some familyInfo =>
    if queueIndex < familyInfo.count then
      (.ok ⟨getDeviceQueue familyIndex queueIndex, device, familyIndex, queueIndex⟩,
        [.getDeviceQueue familyIndex queueIndex])
    else
      (.error .badQueueIndex, [])
  | none => (.error .badFamilyIndex, [])

/-- Embeds `vk::DescriptorType` values produced by
`BindingDescriptorType::to_vk_descriptor_type`
(`desc_set_layout/binding.rs`). -/
inductive VkDescriptorType where
  | sampler
  | combinedImageSampler
  | sampledImage
  | storageImage
  | uniformTexelBuffer
  | storageTexelBuffer
  | uniformBuffer
  | storageBuffer
  | uniformBufferDynamic
  | storageBufferDynamic
  | inputAttachment
  | accelerationStructureKhr
deriving DecidableEq

/-- Embeds `BindingDescriptorType` from `desc_set_layout/binding.rs`; the
sampler-carrying variants hold the immutable samplers supplied. -/
inductive BindingDescriptorType where
  | samplerType (samplers : List Sampler)
  | combinedImageSampler (samplers : List Sampler)
  | sampledImage
  | storageImage
  | uniformTexelBuffer
  | storageTexelBuffer
  | uniformBuffer
  | storageBuffer
  | uniformBufferDynamic
  | storageBufferDynamic
  | inputAttachment
  | accelerationStructureKhr
deriving DecidableEq

/-- Embeds `BindingDescriptorType::to_vk_descriptor_type`
(`desc_set_layout/binding.rs`). -/
def BindingDescriptorType.toVkDescriptorType :
    BindingDescriptorType → VkDescriptorType
  | .samplerType _ => .sampler
  | .combinedImageSampler _ => .combinedImageSampler
  | .sampledImage => .sampledImage
  | .storageImage => .storageImage
  | .uniformTexelBuffer => .uniformTexelBuffer
  | .storageTexelBuffer => .storageTexelBuffer
  | .uniformBuffer => .uniformBuffer
  | .storageBuffer => .storageBuffer
  | .uniformBufferDynamic => .uniformBufferDynamic
  | .storageBufferDynamic => .storageBufferDynamic
  | .inputAttachment => .inputAttachment
  | .accelerationStructureKhr => .accelerationStructureKhr

/-- Embeds `BindingDescriptorType::has_samplers`
(`desc_set_layout/binding.rs`): true exactly for the `Sampler` and
`CombinedImageSampler` variants. -/
def BindingDescriptorType.hasSamplers : BindingDescriptorType → Bool
  | .samplerType _ => true
  | .combinedImageSampler _ => true
  | _ => false

/-- Embeds `BindingInfo::get_samplers_vec` (`desc_set_layout/binding.rs`). -/
def BindingDescriptorType.getSamplersVec : BindingDescriptorType → List Sampler
  | .samplerType samplers => samplers
  | .combinedImageSampler samplers => samplers
  | _ => []

/-- Embeds the fields of `vk::DescriptorSetLayoutBinding` that
`desc_set_layout/binding.rs` fills in (the immutable-sampler pointer is
represented by the `rawSamplers` list held next to it in `BindingInfo`). -/
structure DescriptorSetLayoutBinding where
  descriptorType : VkDescriptorType
  descriptorCount : Nat
  binding : Nat
  stageFlags : Nat
deriving DecidableEq

/-- Embeds `BindingInfo` from `desc_set_layout/binding.rs`. -/
structure BindingInfo where
  samplers : List Sampler
  rawSamplers : List Nat
  rawBinding : DescriptorSetLayoutBinding
deriving DecidableEq

/-- Embeds `BindingInfo::new` from `desc_set_layout/binding.rs`.  The source
panics (an unconditional abort, not a recoverable error) when the binding
has immutable samplers and `descriptors_count > raw_samplers.len() as u32`;
the abort is modelled as `none`.  The `% 4294967296` mirrors the `as u32`
cast of the sampler count. -/
def BindingInfo.new (index : Nat) (descriptorType : BindingDescriptorType)
    (descriptorsCount : Nat) (stageFlags : Nat) : Option BindingInfo :=
  let vkDescriptorType := descriptorType.toVkDescriptorType
  let hasSamplers := descriptorType.hasSamplers
  let samplers := descriptorType.getSamplersVec
  let rawSamplers := samplers.map (fun s => s.sampler.handle)
  if hasSamplers ∧ descriptorsCount > rawSamplers.length % 4294967296 then
    none
  else
    some ⟨samplers, rawSamplers, ⟨vkDescriptorType, descriptorsCount, index, stageFlags⟩⟩

/-- Embeds `raw_name_to_c_string` from `lib.rs`.  Bytes are `i8` values,
modelled as integers; the returned value is the content of the resulting
`CString` (its bytes before the terminating NUL).  An empty slice yields the
empty string; otherwise the final byte is overwritten with `0` and the
string is read from the start up to the first NUL. -/
def rawNameToCString (raw : List Int) : List Int :=
  if raw.isEmpty then []
  else (raw.set (raw.length - 1) 0).takeWhile (fun b => b != 0)

/-- World state for the sampler / descriptor-set-layout scenario of the
dependency-ordering property: the strong counts of the sampler `Arc` and of
the layout `Arc`, their native handles, and how many sampler references the
layout's `samplers` field holds. -/
structure SamplerLayoutWorld where
  samplerStrong : Nat
  samplerHandle : Nat
  layoutStrong : Nat
  layoutHandle : Nat
  layoutHeldSamplers : Nat
deriving DecidableEq

/-- Dropping one `Sampler` clone (one strong reference of the sampler `Arc`):
when the last reference goes, `impl Drop for UniqueSampler` (`sampler.rs`)
destroys the native sampler. -/
def dropSamplerRef (w : SamplerLayoutWorld) : SamplerLayoutWorld × List VkDestroyCall :=
  if w.samplerStrong ≤ 1 then
    ({ w with samplerStrong := 0 }, [.destroySampler w.samplerHandle])
  else
    ({ w with samplerStrong := w.samplerStrong - 1 }, [])

/-- Releasing the sampler references held by the layout's `samplers` field
(`Vec<Sampler>` drops each element in turn). -/
def releaseHeldSamplers : Nat → SamplerLayoutWorld → SamplerLayoutWorld × List VkDestroyCall
  | 0, w => (w, [])
  | n + 1, w =>
    let s1 := dropSamplerRef w
    let s2 := releaseHeldSamplers n s1.1
    (s2.1, s1.2 ++ s2.2)

/-- Dropping one `DescriptorSetLayout` clone.  When the last reference goes,
the inner `UniqueDescriptorSetLayout` is dropped: the source has no
`impl Drop` for it, so no native destroy call is made (the `[]` prepended
below is `UniqueDescriptorSetLayout.dropDestroys`), and then its fields are
dropped, releasing the held sampler references. -/
def dropLayoutRef (w : SamplerLayoutWorld) : SamplerLayoutWorld × List VkDestroyCall :=
  if w.layoutStrong ≤ 1 then
    let r := releaseHeldSamplers w.layoutHeldSamplers { w with layoutStrong := 0 }
    (r.1, [] ++ r.2)
  else
    ({ w with layoutStrong := w.layoutStrong - 1 }, [])

/-- Scenario of the dependency-ordering property: a sampler S (handle 1) with
two references (the user clone and the one retained by layout L, handle 2,
which holds S as its dependency); the user drops their S clone first, then
the last L clone.  The trace collects every native destroy call in order. -/
def samplerLayoutScenarioTrace : List VkDestroyCall :=
  let w0 : SamplerLayoutWorld := ⟨2, 1, 1, 2, 1⟩
  let s1 := dropSamplerRef w0
  let s2 := dropLayoutRef s1.1
  s1.2 ++ s2.2

/-- Concrete instance used by witnesses below. -/
def instW : Instance := ⟨⟨3, 0⟩⟩

/-- Concrete physical-device info used by witnesses: one queue family with
index 0 and two created queues. -/
def pdW : PhysicalDeviceInfo := ⟨0, [⟨0, 2⟩], 0⟩

/-- Concrete device used by witnesses. -/
def devW : Device := ⟨⟨instW, pdW, 5⟩⟩

/-- Concrete unique buffer used by witnesses. -/
def bufW : UniqueBuffer := ⟨7, devW, 64, 0⟩

/-- Concrete unique descriptor-set layout used by witnesses. -/
def dslW : UniqueDescriptorSetLayout := ⟨9, devW, []⟩

/-- Concrete sampler used by witnesses. -/
def samplerW : Sampler := ⟨⟨11, devW⟩⟩

/-- Concrete command-buffer batch (two allocated handles) used by
witnesses. -/
def cbW : CommandBuffers := ⟨⟨[20, 21], ⟨⟨13, devW, 0, 0⟩⟩, 0, devW⟩⟩

/-- Embeds `impl PartialEq for UniqueDescriptorSetLayout`
(`desc_set_layout/mod.rs`): native-handle equality. -/
def UniqueDescriptorSetLayout.beq (a b : UniqueDescriptorSetLayout) : Bool :=
  a.handle == b.handle

/-- Embeds `impl PartialEq for UniqueCommandBuffers` (`command_buffer.rs`):
`self.handles == other.handles`, equality of the batch's native handles. -/
def UniqueCommandBuffers.beq (a b : UniqueCommandBuffers) : Bool :=
  a.handles == b.handles

/-- Embeds `impl PartialEq for UniqueInstance` (`instance.rs`):
`self.handle.handle() == other.handle.handle()`, equality of the raw native
instance handles (the `handle` field here is already that raw handle). -/
def UniqueInstance.beq (a b : UniqueInstance) : Bool :=
  a.handle == b.handle

/-- Embeds `impl PartialEq for Queue` (`queue.rs`): native-handle
equality. -/
def Queue.beq (a b : Queue) : Bool :=
  a.handle == b.handle

/-- Embeds the `#[derive(Eq, PartialEq)]` on `UniqueCommandPool`
(`command_pool.rs`): the derive compares every field — handle, device,
queue family index and flags — not the native handle alone.  The derive
cannot actually compile, because `Device` (`device/mod.rs`) implements no
`PartialEq`; the device comparison is modelled as structural equality, the
only comparison the derive could delegate to. -/
def UniqueCommandPool.beq (a b : UniqueCommandPool) : Bool :=
  a.handle == b.handle && decide (a.device = b.device) &&
    a.queueFamilyIndex == b.queueFamilyIndex && a.flags == b.flags

/-- Embeds the derived `PartialEq` of `CommandPool` (`command_pool.rs`):
forwards through the `Arc` to the unique pool's comparison. -/
def CommandPool.beq (a b : CommandPool) : Bool :=
  UniqueCommandPool.beq a.uniqueCommandPool b.uniqueCommandPool

/-- Concrete command pool used to evaluate the derived pool equality:
handle 13, queue family 0, flags 0, on the witness device. -/
def poolEqW1 : UniqueCommandPool := ⟨13, devW, 0, 0⟩

/-- Concrete command pool with the same native handle and device as
`poolEqW1` but different creation flags. -/
def poolEqW2 : UniqueCommandPool := ⟨13, devW, 0, 1⟩

/-- Cloning `n` times starting from a fresh `Arc` yields strong count
`n + 1`. -/
theorem arcCloneN_arcNew (n : Nat) (a : α) : arcCloneN n (arcNew a) = ⟨n + 1, a⟩ := by
  induction n with
  | zero => rfl
  | succ n ih => simp [arcCloneN, arcClone, ih]

/-- Unfolding equation for one step of `arcDropN`. -/
theorem arcDropN_succ (f : α → List ε) (n : Nat) (s : ArcState α) :
    arcDropN f (n + 1) s =
      (match arcDrop f s with
       | (none, ev) => (none, ev)
       | (some s2, ev) => ((arcDropN f n s2).1, ev ++ (arcDropN f n s2).2)) := rfl

/-- Dropping fewer clones than the strong count emits no events and leaves
the remaining count. -/
theorem arcDropN_of_lt (f : α → List ε) (k m : Nat) (a : α) (h : k < m) :
    arcDropN f k ⟨m, a⟩ = (some ⟨m - k, a⟩, []) := by
  induction k generalizing m with
  | zero => simp [arcDropN]
  | succ k ih =>
    have hm : ¬ m ≤ 1 := by omega
    have h2 : k < m - 1 := by omega
    have hs : m - 1 - k = m - (k + 1) := by omega
    rw [arcDropN_succ]
    simp only [arcDrop, if_neg hm]
    rw [ih (m - 1) h2, hs]
    rfl

/-- Dropping exactly as many clones as the strong count emits the inner
value's drop events exactly once, at the last drop. -/
theorem arcDropN_last (f : α → List ε) (m : Nat) (a : α) :
    arcDropN f (m + 1) ⟨m + 1, a⟩ = (none, f a) := by
  induction m with
  | zero => simp [arcDropN, arcDrop]
  | succ m ih =>
    have hm : ¬ m + 2 ≤ 1 := by omega
    rw [arcDropN_succ]
    simp only [arcDrop, if_neg hm, Nat.add_sub_cancel]
    rw [ih]
    rfl

/-- Overwriting the last element of a nonempty list. -/
theorem set_last_eq_dropLast_append (raw : List Int) (h : raw ≠ []) :
    raw.set (raw.length - 1) 0 = raw.dropLast ++ [0] := by
  induction raw with
  | nil => exact absurd rfl h
  | cons a t ih =>
    cases t with
    | nil => rfl
    | cons b u =>
      have h2 : (b :: u : List Int) ≠ [] := by simp
      have hl : (a :: b :: u : List Int).length - 1 = ((b :: u : List Int).length - 1) + 1 := by
        simp
      rw [hl, List.set_cons_succ, ih h2]
      rfl

/-- Reading up to the first NUL from a list that ends in a NUL yields a
prefix of the part before that NUL. -/
theorem takeWhile_append_zero (xs : List Int) :
    ∃ k, k ≤ xs.length ∧ (xs ++ [0]).takeWhile (fun b => b != 0) = xs.take k := by
  induction xs with
  | nil => exact ⟨0, Nat.le_refl 0, by simp [List.takeWhile_cons]⟩
  | cons a t ih =>
    by_cases ha : a = 0
    · exact ⟨0, Nat.zero_le _, by simp [List.takeWhile_cons, ha]⟩
    · obtain ⟨k, hk, he⟩ := ih
      refine ⟨k + 1, by simpa using hk, ?_⟩
      have hpa : (a != 0) = true := by simpa using ha
      simp [List.takeWhile_cons, hpa, he]

/-- C1.  The claim says: for every resource kind, cloning a shared handle N
times and dropping all N + 1 clones invokes the native destroy exactly once,
at the last drop and never before.  The reference-counting embedded from
`generic/mod.rs` / `buffer.rs` does behave this way for kinds whose unique
resource implements `Drop` (first two conjuncts, shown for the buffer kind),
but `UniqueDescriptorSetLayout` has no `Drop` impl, so for the
descriptor-set-layout kind the native destroy fires zero times, not exactly
once (third conjunct) — the code contradicts the claim. -/
theorem c1_destroy_count_eval :
    (∀ (N : Nat) (u : UniqueBuffer),
      (arcDropN UniqueBuffer.dropDestroys (N + 1) (arcCloneN N (arcNew u))).2 =
        [VkDestroyCall.destroyBuffer u.handle]) ∧
    (∀ (N k : Nat) (u : UniqueBuffer), k ≤ N →
      (arcDropN UniqueBuffer.dropDestroys k (arcCloneN N (arcNew u))).2 = []) ∧
    (∀ (N : Nat) (u : UniqueDescriptorSetLayout),
      (arcDropN UniqueDescriptorSetLayout.dropDestroys (N + 1)
        (arcCloneN N (arcNew u))).2 = []) := by
  refine ⟨?_, ?_, ?_⟩
  · intro N u
    rw [arcCloneN_arcNew, arcDropN_last]
    rfl
  · intro N k u h
    rw [arcCloneN_arcNew, arcDropN_of_lt _ _ _ _ (by omega)]
  · intro N u
    rw [arcCloneN_arcNew, arcDropN_last]
    rfl

/-- Witness for C1 at concrete inputs: three clones of a buffer handle,
dropping two emits nothing, dropping all four destroys once; a lone
descriptor-set-layout handle dropped emits nothing. -/
theorem c1_destroy_count_eval_witness :
    (2 ≤ 3 ∧
      (arcDropN UniqueBuffer.dropDestroys 2 (arcCloneN 3 (arcNew bufW))).2 = []) ∧
    (arcDropN UniqueBuffer.dropDestroys 4 (arcCloneN 3 (arcNew bufW))).2 =
      [VkDestroyCall.destroyBuffer bufW.handle] ∧
    (arcDropN UniqueDescriptorSetLayout.dropDestroys 1 (arcCloneN 0 (arcNew dslW))).2 = [] :=
  ⟨⟨by decide, c1_destroy_count_eval.2.1 3 2 bufW (by decide)⟩,
    c1_destroy_count_eval.1 3 bufW, c1_destroy_count_eval.2.2 0 dslW⟩

/-- C2.  The claim says: for every resource kind, dropping the last clone
invokes the native destroy/free call for the underlying handle as part of
that drop.  This holds for buffer, device memory, command pool,
command-buffer batch, sampler, debug report, device, instance, and for any
kind going through the generic `UniqueDeviceHandle` (which covers the shader
module), but fails for the descriptor-set layout: dropping its last clone
performs no native destroy call, because `UniqueDescriptorSetLayout` has no
`Drop` impl. -/
theorem c2_last_drop_destroys_eval :
    (∀ u : UniqueBuffer, arcDrop UniqueBuffer.dropDestroys (arcNew u) =
      (none, [VkDestroyCall.destroyBuffer u.handle])) ∧
    (∀ u : UniqueMemory, arcDrop UniqueMemory.dropDestroys (arcNew u) =
      (none, [VkDestroyCall.freeMemory u.handle])) ∧
    (∀ u : UniqueCommandPool, arcDrop UniqueCommandPool.dropDestroys (arcNew u) =
      (none, [VkDestroyCall.destroyCommandPool u.handle])) ∧
    (∀ u : UniqueCommandBuffers, arcDrop UniqueCommandBuffers.dropDestroys (arcNew u) =
      (none, [VkDestroyCall.freeCommandBuffers u.pool.uniqueCommandPool.handle u.handles])) ∧
    (∀ u : UniqueSampler, arcDrop UniqueSampler.dropDestroys (arcNew u) =
      (none, [VkDestroyCall.destroySampler u.handle])) ∧
    (∀ u : UniqueDebugReport, arcDrop UniqueDebugReport.dropDestroys (arcNew u) =
      (none, [VkDestroyCall.destroyDebugReportCallback u.handle])) ∧
    (∀ u : UniqueDevice, arcDrop UniqueDevice.dropDestroys (arcNew u) =
      (none, [VkDestroyCall.destroyDevice u.handle])) ∧
    (∀ u : UniqueInstance, arcDrop UniqueInstance.dropDestroys (arcNew u) =
      (none, [VkDestroyCall.destroyInstance u.handle])) ∧
    (∀ (destroyOp : Nat → VkDestroyCall) (u : UniqueDeviceHandle),
      arcDrop (UniqueDeviceHandle.dropDestroys destroyOp) (arcNew u) =
        (none, [destroyOp u.handle])) ∧
    (∀ u : UniqueDescriptorSetLayout,
      arcDrop UniqueDescriptorSetLayout.dropDestroys (arcNew u) = (none, [])) :=
  ⟨fun _ => rfl, fun _ => rfl, fun _ => rfl, fun _ => rfl, fun _ => rfl,
    fun _ => rfl, fun _ => rfl, fun _ => rfl, fun _ _ => rfl, fun _ => rfl⟩

/-- C3.  The claim says: a resource's own native destroy is invoked strictly
before any of its dependency references are released, so a dependency's
destroy never fires before its dependent's.  In the embedded
sampler / descriptor-set-layout scenario (layout L, handle 2, retains
sampler S, handle 1): dropping S's own user clone while L is alive destroys
nothing (first conjunct — this part of the claim holds), but after dropping
L's last clone the recorded trace destroys the sampler and never the layout
(second and third conjuncts): the dependency's destroy fires although the
dependent's destroy never does, because `UniqueDescriptorSetLayout` has no
`Drop` impl and only releases its `samplers` field. -/
theorem c3_dependency_order_eval :
    (dropSamplerRef ⟨2, 1, 1, 2, 1⟩).2 = [] ∧
    samplerLayoutScenarioTrace = [VkDestroyCall.destroySampler 1] ∧
    VkDestroyCall.destroyDescriptorSetLayout 2 ∉ samplerLayoutScenarioTrace := by
  refine ⟨by decide, by decide, by decide⟩

/-- C4: for every resource kind, a failed native create call makes the
constructor return the originating native error code unchanged (wrapped in
the kind's error type where the source wraps it), no unique resource value
exists, and zero native destroy calls are performed for the attempted
resource. -/
theorem c4_construction_failure_propagates :
    (∀ (d : Device) (ci : BufferCreateInfo) (e : Int),
      UniqueBuffer.new d ci (.error e) = (.error (.vkError e), [])) ∧
    (∀ (d : Device) (ai : MemoryAllocateInfo) (e : Int),
      UniqueMemory.new d ai (.error e) = (.error (.vkError e), [])) ∧
    (∀ (d : Device) (ci : CommandPoolCreateInfo) (e : Int),
      UniqueCommandPool.new d ci (.error e) = (.error (.vkError e), [])) ∧
    (∀ (ai : CommandBufferAllocateInfo) (d : Device) (p : CommandPool) (e : Int),
      UniqueCommandBuffers.allocate ai d p (.error e) = (.error (.vkError e), [])) ∧
    (∀ (ci : SamplerCreateInfo) (d : Device) (e : Int),
      UniqueSampler.new ci d (.error e) = (.error (.vkError e), [])) ∧
    (∀ (ci : DescriptorSetLayoutCreateInfo) (d : Device) (ss : List Sampler) (e : Int),
      UniqueDescriptorSetLayout.new ci d ss (.error e) = (.error (.vkError e), [])) ∧
    (∀ (i : Instance) (ci : DebugReportCallbackCreateInfo) (cb : Nat) (e : Int),
      UniqueDebugReport.new i ci cb (.error e) = (.error (.vkError e), [])) ∧
    (∀ (i : Instance) (pd : PhysicalDeviceInfo) (ci : DeviceCreateInfo) (e : Int),
      UniqueDevice.new i pd ci (.error e) = (.error (.vkError e), [])) ∧
    (∀ (entry : Nat) (ci : InstanceCreateInfo) (err : InstanceError),
      UniqueInstance.new entry ci (.error err) = (.error err, [])) ∧
    (∀ (ci : Nat) (d : Device) (deps : List Nat) (e : Int),
      UniqueDeviceHandle.new ci d deps (.error e) = (.error e, [])) :=
  ⟨fun _ _ _ => rfl, fun _ _ _ => rfl, fun _ _ _ => rfl, fun _ _ _ _ => rfl,
    fun _ _ _ => rfl, fun _ _ _ _ => rfl, fun _ _ _ _ => rfl, fun _ _ _ _ => rfl,
    fun _ _ _ => rfl, fun _ _ _ _ => rfl⟩

/-- C5.  The claim says the generic unique resource also owns the destroy
context supplied at construction and passes it to the contract's destroy
operation.  In the source, `UniqueDeviceHandle` has exactly the fields
`handle`, `device` and `_dependencies`: its `new` takes no destroy context
(first conjunct: the constructed value holds only those three components)
and its `Drop` passes only the handle and device to the destroy operation
(second conjunct: the emitted call is determined by the handle alone, with
no destroy-context argument). -/
theorem c5_no_destroy_context_eval :
    (∀ (ci : Nat) (d : Device) (deps : List Nat) (h : Nat),
      UniqueDeviceHandle.new ci d deps (.ok h) = (.ok ⟨h, d, deps⟩, [])) ∧
    (∀ (destroyOp : Nat → VkDestroyCall) (u : UniqueDeviceHandle),
      UniqueDeviceHandle.dropDestroys destroyOp u = [destroyOp u.handle]) :=
  ⟨fun _ _ _ _ => rfl, fun _ _ => rfl⟩

/-- C6.  The claim says: for every resource kind, two shared handles (and
the unique resources behind them) compare equal iff their wrapped native
handle values are equal.  The kinds whose equality is hand-implemented do
satisfy this — buffer (also at the shared wrapper, where clones compare
equal), sampler, descriptor-set layout, command-buffer batch, instance,
queue, and the generic handle (first nine conjuncts) — but the command pool
contradicts it: `UniqueCommandPool` derives `PartialEq`, comparing every
field, so two pools with the same native handle and device but different
creation flags compare unequal although their handle values are equal
(last conjunct); the derive moreover requires a `Device` equality that the
source never defines.  `Memory`, `DebugReport` and `Device` define no
equality at all. -/
theorem c6_equality_eval :
    (∀ a b : Buffer, Buffer.beq a b = true ↔
      a.uniqueBuffer.handle = b.uniqueBuffer.handle) ∧
    (∀ a : Buffer, Buffer.beq (Buffer.clone a) a = true) ∧
    (∀ a b : UniqueSampler, UniqueSampler.beq a b = true ↔ a.handle = b.handle) ∧
    (∀ a b : UniqueDescriptorSetLayout,
      UniqueDescriptorSetLayout.beq a b = true ↔ a.handle = b.handle) ∧
    (∀ a b : UniqueCommandBuffers,
      UniqueCommandBuffers.beq a b = true ↔ a.handles = b.handles) ∧
    (∀ a b : UniqueInstance, UniqueInstance.beq a b = true ↔ a.handle = b.handle) ∧
    (∀ a b : Queue, Queue.beq a b = true ↔ a.handle = b.handle) ∧
    (∀ a b : DeviceHandle, DeviceHandle.beq a b = true ↔
      a.uniqueHandle.handle = b.uniqueHandle.handle) ∧
    (∀ a : DeviceHandle, DeviceHandle.beq (DeviceHandle.clone a) a = true) ∧
    (poolEqW1.handle = poolEqW2.handle ∧
      UniqueCommandPool.beq poolEqW1 poolEqW2 = false) := by
  refine ⟨?_, ?_, ?_, ?_, ?_, ?_, ?_, ?_, ?_, ?_⟩
  · intro a b
    simp [Buffer.beq, UniqueBuffer.beq]
  · intro a
    simp [Buffer.clone, Buffer.beq, UniqueBuffer.beq]
  · intro a b
    simp [UniqueSampler.beq]
  · intro a b
    simp [UniqueDescriptorSetLayout.beq]
  · intro a b
    simp [UniqueCommandBuffers.beq]
  · intro a b
    simp [UniqueInstance.beq]
  · intro a b
    simp [Queue.beq]
  · intro a b
    simp [DeviceHandle.beq, UniqueDeviceHandle.beq]
  · intro a
    simp [DeviceHandle.clone, DeviceHandle.beq, UniqueDeviceHandle.beq]
  · exact ⟨by decide, by decide⟩

/-- C7: `Queue::get` returns the distinct logical error `BadFamilyIndex` when
no created queue family has the requested family index, and `BadQueueIndex`
when the family exists (the first one `find?` locates) but the queue index
is not strictly below its created queue count; in both cases the recorded
list of attempted native calls is empty, i.e. it returns before any
native-API call. -/
theorem c7_queue_get_errors :
    (∀ (g : Nat → Nat → Nat) (d : Device) (fi qi : Nat),
      (∀ inf ∈ d.queuesInfo, inf.familyIndex ≠ fi) →
      Queue.get g d fi qi = (.error .badFamilyIndex, [])) ∧
    (∀ (g : Nat → Nat → Nat) (d : Device) (fi qi : Nat) (inf : QueueInfo),
      d.queuesInfo.find? (fun i => i.familyIndex == fi) = some inf →
      inf.count ≤ qi →
      Queue.get g d fi qi = (.error .badQueueIndex, [])) := by
  constructor
  · intro g d fi qi hnone
    have hf : d.queuesInfo.find? (fun i => i.familyIndex == fi) = none := by
      rw [List.find?_eq_none]
      intro x hx
      simpa using hnone x hx
    simp [Queue.get, hf]
  · intro g d fi qi inf hfind hle
    have hlt : ¬ qi < inf.count := by omega
    simp [Queue.get, hfind, hlt]

/-- Witness for C7: on the concrete device (one family, index 0, two queues),
family 5 yields `BadFamilyIndex` and queue 2 of family 0 yields
`BadQueueIndex`, with no native call either way. -/
theorem c7_queue_get_errors_witness :
    Queue.get (fun _ _ => 0) devW 5 0 = (.error .badFamilyIndex, []) ∧
    Queue.get (fun _ _ => 0) devW 0 2 = (.error .badQueueIndex, []) :=
  ⟨c7_queue_get_errors.1 (fun _ _ => 0) devW 5 0 (by decide),
    c7_queue_get_errors.2 (fun _ _ => 0) devW 0 2 ⟨0, 2⟩ (by decide) (by decide)⟩

/-- C8: `BindingInfo::new` aborts (modelled as `none`) exactly when the
descriptor type carries immutable samplers and the requested descriptor
count exceeds the number of samplers supplied; otherwise it returns a
`BindingInfo` normally.  The hypothesis bounds the sampler count by the
`u32` range, mirroring the source's `as u32` cast. -/
theorem c8_binding_info_panic_iff :
    ∀ (index : Nat) (dt : BindingDescriptorType) (dc sf : Nat),
      dt.getSamplersVec.length < 4294967296 →
      (BindingInfo.new index dt dc sf = none ↔
        (dt.hasSamplers = true ∧ dc > dt.getSamplersVec.length)) := by
  intro index dt dc sf hlen
  simp only [BindingInfo.new, List.length_map, Nat.mod_eq_of_lt hlen]
  by_cases hc : dt.hasSamplers = true ∧ dc > dt.getSamplersVec.length
  · rw [if_pos hc]
    simp [hc]
  · rw [if_neg hc]
    simp [hc]

/-- Witness for C8: a sampler binding supplying one immutable sampler but
requesting two descriptors aborts. -/
theorem c8_binding_info_panic_iff_witness :
    (BindingDescriptorType.samplerType [samplerW]).getSamplersVec.length < 4294967296 ∧
    BindingInfo.new 0 (.samplerType [samplerW]) 2 0 = none :=
  ⟨by decide,
    (c8_binding_info_panic_iff 0 (.samplerType [samplerW]) 2 0 (by decide)).mpr (by decide)⟩

/-- C9: `CommandBuffers::handle(index)` totally returns an `Option`: the
index-th allocated native handle when the index is below `len()`, `none`
when it is not; it never aborts (the embedding is a total function built
from the slice `get`, which the source uses precisely to avoid panicking). -/
theorem c9_command_buffers_handle_total :
    (∀ (c : CommandBuffers) (i : Nat) (h : i < c.commandBuffers.handles.length),
      c.handle i = some (c.commandBuffers.handles.get ⟨i, h⟩)) ∧
    (∀ (c : CommandBuffers) (i : Nat), c.len ≤ i → c.handle i = none) := by
  constructor
  · intro c i h
    simp [CommandBuffers.handle, UniqueCommandBuffers.handle, List.get?_eq_get h]
  · intro c i h
    simp only [CommandBuffers.handle, UniqueCommandBuffers.handle]
    exact List.get?_eq_none.mpr h

/-- Witness for C9 on the concrete two-element batch: index 1 yields the
second handle, index 5 yields `none`. -/
theorem c9_command_buffers_handle_total_witness :
    CommandBuffers.handle cbW 1 = some 21 ∧ CommandBuffers.handle cbW 5 = none :=
  ⟨(c9_command_buffers_handle_total.1 cbW 1 (by decide)).trans (by decide),
    c9_command_buffers_handle_total.2 cbW 5 (by decide)⟩

/-- C10: `raw_name_to_c_string` returns the empty string on the empty slice;
on a nonempty slice the result is strictly shorter than the input (so the
byte at the input's final position, overwritten with NUL, never appears), is
a prefix of the input (the bytes up to the first NUL), and contains no NUL
byte itself. -/
theorem c10_raw_name_to_c_string :
    rawNameToCString [] = [] ∧
    (∀ raw : List Int, raw ≠ [] →
      (rawNameToCString raw).length < raw.length ∧
      (∃ t, rawNameToCString raw ++ t = raw) ∧
      (0 : Int) ∉ rawNameToCString raw) := by
  constructor
  · rfl
  · intro raw h
    have hset := set_last_eq_dropLast_append raw h
    have hlen : raw.dropLast.length = raw.length - 1 := by
      simp [List.length_dropLast]
    have hres : rawNameToCString raw =
        (raw.dropLast ++ [0]).takeWhile (fun b => b != 0) := by
      rw [rawNameToCString, if_neg (by simpa using h), hset]
    obtain ⟨k, hk, he⟩ := takeWhile_append_zero raw.dropLast
    have hres2 : rawNameToCString raw = raw.dropLast.take k := by
      rw [hres, he]
    have hpos : 0 < raw.length := List.length_pos.mpr h
    refine ⟨?_, ?_, ?_⟩
    · rw [hres2]
      have hle : (raw.dropLast.take k).length ≤ raw.dropLast.length := by
        simp [List.length_take]
      omega
    · refine ⟨raw.dropLast.drop k ++ [raw.getLast h], ?_⟩
      rw [hres2, ← List.append_assoc, List.take_append_drop,
        List.dropLast_append_getLast h]
    · rw [hres]
      intro hmem
      have hp := List.mem_takeWhile_imp hmem
      simp at hp

/-- Witness for C10 on a concrete nonempty name buffer. -/
theorem c10_raw_name_to_c_string_witness :
    ([65, 66, 67] : List Int) ≠ [] ∧
    (rawNameToCString [65, 66, 67]).length < 3 ∧
    (∃ t, rawNameToCString [65, 66, 67] ++ t = [65, 66, 67]) ∧
    (0 : Int) ∉ rawNameToCString [65, 66, 67] :=
  ⟨by decide, (c10_raw_name_to_c_string.2 [65, 66, 67] (by decide)).1,
    (c10_raw_name_to_c_string.2 [65, 66, 67] (by decide)).2.1,
    (c10_raw_name_to_c_string.2 [65, 66, 67] (by decide)).2.2⟩

end VkLlw
